import Mathlib

/-! The gofinance-backend: account handlers, CORS middleware and category
queries.

A shallow embedding of

* `api/account.go`: the seven account handlers of the HTTP server,
* `util/cors.go`: the CORS middleware,
* `db/sqlc/category.sql.go`: the generated category queries,

followed by the properties of the handlers' control flow and status mapping.

The collaborators whose code lies outside these three files (the token
verifier, the request binder of the web framework, the `Store` interface and
the `DBTX` interface) are parameters of the embedded functions.  The store
calls a handler makes are observed by running it on a store that records each
call in a log, so that "no store call is made" and "exactly one call is made"
are statements about that log.
-/

namespace GoFinance

/-! ## Values shared by the three files -/

/-- Go `error` values.  `ErrNoRows` is the sentinel `sql.ErrNoRows`, which the
handlers compare against with `==`; every other error is `other`. -/
inductive GoError where
  | ErrNoRows
  | other (msg : String)
deriving DecidableEq, Repr

/-- The `Category` row, with the columns scanned by the queries of
`category.sql.go`. -/
structure Category where
  ID : Int
  UserID : Int
  Title : String
  Type_ : String
  Description : String
  CreatedAt : Int
deriving DecidableEq, Repr

/-- Modelled from the spec: the `Account` row (declared in the generated
models file, which is not among the sources): identifier, owning user,
category, title, type, description, value, date and creation timestamp. -/
structure Account where
  ID : Int
  UserID : Int
  CategoryID : Int
  Title : String
  Type_ : String
  Description : String
  Value : Int
  Date : Int
  CreatedAt : Int
deriving DecidableEq, Repr

/-! ## The web framework's request context -/

/-- The part of `gin.Context` the code touches: the request method, the
response headers, the response status and JSON payload (both absent until
written) and the abort flag of the handler chain. -/
structure Context (β : Type) where
  Method : String
  Header : List (String × String)
  Status : Option Nat
  Body : Option β
  Aborted : Bool

/-- `Header().Set(key, value)`: the entry for `key` is replaced. -/
def headerSet (h : List (String × String)) (key value : String) : List (String × String) :=
  (h.filter (fun kv => kv.1 != key)) ++ [(key, value)]

/-- `Header().Get(key)`. -/
def headerGet (h : List (String × String)) (key : String) : Option String :=
  (h.find? (fun kv => kv.1 == key)).map (fun kv => kv.2)

/-- `context.Writer.Header().Set(key, value)`. -/
def Context.SetHeader {β : Type} (c : Context β) (key value : String) : Context β :=
  { c with Header := headerSet c.Header key value }

/-- `ctx.JSON(code, obj)`: writes the status code and the JSON payload. -/
def Context.JSON {β : Type} (c : Context β) (code : Nat) (obj : β) : Context β :=
  { c with Status := some code, Body := some obj }

/-- `context.AbortWithStatus(code)`: writes the status code and stops the
handler chain. -/
def Context.AbortWithStatus {β : Type} (c : Context β) (code : Nat) : Context β :=
  { c with Status := some code, Aborted := true }

/-- The `http.Status*` constants used by the handlers. -/
def StatusOK : Nat := 200

/-- The constant `http.StatusBadRequest`. -/
def StatusBadRequest : Nat := 400

/-- The constant `http.StatusNotFound`. -/
def StatusNotFound : Nat := 404

/-- The constant `http.StatusInternalServerError`. -/
def StatusInternalServerError : Nat := 500

/-! ## `util/cors.go` -/

/-- `CORSConfig()`: the returned middleware.  `next` is what `context.Next()`
runs, the rest of the handler chain. -/
def CORSConfig {β : Type} (next : Context β → Context β) (context : Context β) : Context β :=
  let c1 := context.SetHeader "Access-Control-Allow-Origin" "*"
  let c2 := c1.SetHeader "Access-Control-Allow-Credentials" "true"
  let c3 := c2.SetHeader "Access-Control-Allow-Headers"
    "Content-Type, Content-Length, X-CSRF-Token, Authorization, accept, origin, Cache-Control, X-Requested-With"
  let c4 := c3.SetHeader "Access-Control-Allow-Methods" "POST, GET, PUT, DELETE"
  if c4.Method = "OPTIONS" then
    c4.AbortWithStatus 204
  else
    next c4

/-! ## `api/account.go`: requests, store interface and handlers -/

/-- The struct `createAccountRequest`. -/
structure createAccountRequest where
  UserID : Int
  CategoryID : Int
  Title : String
  Type_ : String
  Description : String
  Value : Int
  Date : Int
deriving DecidableEq, Repr

/-- The struct `getAccountRequest`; `deleteAccount` binds into it as well. -/
structure getAccountRequest where
  ID : Int
deriving DecidableEq, Repr

/-- The struct `updateAccountRequest`. -/
structure updateAccountRequest where
  ID : Int
  Title : String
  Description : String
  Value : Int
deriving DecidableEq, Repr

/-- The struct `getAccountsRequest`. -/
structure getAccountsRequest where
  UserID : Int
  Type_ : String
  CategoryID : Int
  Title : String
  Description : String
  Date : Int
deriving DecidableEq, Repr

/-- The struct `getAccountsGraphRequest`. -/
structure getAccountsGraphRequest where
  UserID : Int
  Type_ : String
deriving DecidableEq, Repr

/-- The struct `getAccountsReportsRequest`. -/
structure getAccountsReportsRequest where
  UserID : Int
  Type_ : String
deriving DecidableEq, Repr

/-- The struct `db.CreateAccountParams`, with the fields `createAccount` fills. -/
structure CreateAccountParams where
  UserID : Int
  CategoryID : Int
  Title : String
  Type_ : String
  Description : String
  Value : Int
  Date : Int
deriving DecidableEq, Repr

/-- The struct `db.UpdateAccountParams`, with the fields `updateAccount` fills. -/
structure UpdateAccountParams where
  ID : Int
  Title : String
  Description : String
  Value : Int
deriving DecidableEq, Repr

/-- The struct `db.GetAccountsParams`, with the fields `getAccounts` fills. -/
structure GetAccountsParams where
  UserID : Int
  Type_ : String
  CategoryID : Int
  Title : String
  Description : String
  Date : Int
deriving DecidableEq, Repr

/-- The struct `db.GetAccountsGraphParams`. -/
structure GetAccountsGraphParams where
  UserID : Int
  Type_ : String
deriving DecidableEq, Repr

/-- The struct `db.GetAccountsReportsParams`. -/
structure GetAccountsReportsParams where
  UserID : Int
  Type_ : String
deriving DecidableEq, Repr

/-- The values the handlers hand to `ctx.JSON`.  `L`, `G` and `R` are the
result types of the store's `GetAccounts`, `GetAccountsGraph` and
`GetAccountsReports`.  `wrappedError` is `errorResponse(err)`, `rawError` is an
error passed to `ctx.JSON` as it is. -/
inductive Payload (L G R : Type) where
  | account (a : Account)
  | listing (rows : L)
  | graph (g : G)
  | reports (r : R)
  | bool (b : Bool)
  | text (s : String)
  | rawError (e : GoError)
  | wrappedError (e : GoError)

/-- Modelled from the spec: the helper `errorResponse` of the `api` package
(defined outside `account.go`), which wraps an error in an object; handlers
that do not use it hand the raw error to `ctx.JSON`. -/
def errorResponse {L G R : Type} (err : GoError) : Payload L G R :=
  Payload.wrappedError err

/-- The operations of the `db.Store` interface that the account handlers call.
`σ` is the state of the database; each operation returns its Go result pair
`(value, error)` as an `Except` together with the state it leaves. -/
structure Store (σ L G R : Type) where
  GetCategory : Int → σ → Except GoError Category × σ
  CreateAccount : CreateAccountParams → σ → Except GoError Account × σ
  GetAccount : Int → σ → Except GoError Account × σ
  DeleteAccount : Int → σ → Except GoError Unit × σ
  UpdateAccount : UpdateAccountParams → σ → Except GoError Account × σ
  GetAccounts : GetAccountsParams → σ → Except GoError L × σ
  GetAccountsGraph : GetAccountsGraphParams → σ → Except GoError G × σ
  GetAccountsReports : GetAccountsReportsParams → σ → Except GoError R × σ

/-- The struct `Server`, of which the handlers use the `store` field. -/
structure Server (σ L G R : Type) where
  store : Store σ L G R

/-- One entry of the call log: a store operation and its argument. -/
inductive StoreCall where
  | GetCategory (id : Int)
  | CreateAccount (arg : CreateAccountParams)
  | GetAccount (id : Int)
  | DeleteAccount (id : Int)
  | UpdateAccount (arg : UpdateAccountParams)
  | GetAccounts (arg : GetAccountsParams)
  | GetAccountsGraph (arg : GetAccountsGraphParams)
  | GetAccountsReports (arg : GetAccountsReportsParams)
deriving DecidableEq, Repr

/-- Whether a log entry is a call of the store's `CreateAccount`. -/
def StoreCall.isCreateAccount : StoreCall → Bool
  | StoreCall.CreateAccount _ => true
  | _ => false

/-- The function `util.GetTokenInHeaderAndVerify`: it reads the context, may
write a response to it, and returns an error or nil (`none`). -/
abbrev TokenVerifier (β : Type) := Context β → Option GoError × Context β

/-- One of `ctx.ShouldBindJSON`, `ctx.ShouldBindUri`, `ctx.ShouldBindQuery` at a
request struct `Req`: it reads the context and returns the bound struct or an
error, and writes no response. -/
abbrev Binder (β Req : Type) := Context β → Except GoError Req

/-- The handler `createAccount`. -/
def Server.createAccount {σ L G R : Type} (server : Server σ L G R)
    (GetTokenInHeaderAndVerify : TokenVerifier (Payload L G R))
    (ShouldBindJSON : Binder (Payload L G R) createAccountRequest)
    (ctx0 : Context (Payload L G R)) (s : σ) : Context (Payload L G R) × σ :=
  match GetTokenInHeaderAndVerify ctx0 with
  | (some _, ctx) => (ctx, s)
  | (none, ctx) =>
    match ShouldBindJSON ctx with
    | .error err => (ctx.JSON StatusBadRequest (errorResponse err), s)
    | .ok req =>
      let categoryID := req.CategoryID
      let accountType := req.Type_
      match server.store.GetCategory categoryID s with
      | (.error err, s1) =>
        (ctx.JSON StatusNotFound (errorResponse err), s1)
      | (.ok category, s1) =>
        let categoryTypeIsDifferentOfAccountType := category.Type_ != accountType
        if categoryTypeIsDifferentOfAccountType then
          (ctx.JSON StatusBadRequest (Payload.text "Account Type is different of Category type"), s1)
        else
          let arg : CreateAccountParams :=
            { UserID := req.UserID
              CategoryID := categoryID
              Title := req.Title
              Type_ := req.Type_
              Description := req.Description
              Value := req.Value
              Date := req.Date }
          match server.store.CreateAccount arg s1 with
          | (.error err, s2) =>
            (ctx.JSON StatusInternalServerError (errorResponse err), s2)
          | (.ok account, s2) =>
            (ctx.JSON StatusOK (Payload.account account), s2)

/-- The handler `getAccount`. -/
def Server.getAccount {σ L G R : Type} (server : Server σ L G R)
    (GetTokenInHeaderAndVerify : TokenVerifier (Payload L G R))
    (ShouldBindUri : Binder (Payload L G R) getAccountRequest)
    (ctx0 : Context (Payload L G R)) (s : σ) : Context (Payload L G R) × σ :=
  match GetTokenInHeaderAndVerify ctx0 with
  | (some _, ctx) => (ctx, s)
  | (none, ctx) =>
    match ShouldBindUri ctx with
    | .error err => (ctx.JSON StatusBadRequest (Payload.rawError err), s)
    | .ok req =>
      match server.store.GetAccount req.ID s with
      | (.error err, s1) =>
        if err = GoError.ErrNoRows then
          (ctx.JSON StatusNotFound (errorResponse err), s1)
        else
          (ctx.JSON StatusInternalServerError (errorResponse err), s1)
      | (.ok account, s1) =>
        (ctx.JSON StatusOK (Payload.account account), s1)

/-- The handler `deleteAccount`. -/
def Server.deleteAccount {σ L G R : Type} (server : Server σ L G R)
    (GetTokenInHeaderAndVerify : TokenVerifier (Payload L G R))
    (ShouldBindUri : Binder (Payload L G R) getAccountRequest)
    (ctx0 : Context (Payload L G R)) (s : σ) : Context (Payload L G R) × σ :=
  match GetTokenInHeaderAndVerify ctx0 with
  | (some _, ctx) => (ctx, s)
  | (none, ctx) =>
    match ShouldBindUri ctx with
    | .error err => (ctx.JSON StatusBadRequest (Payload.rawError err), s)
    | .ok req =>
      match server.store.DeleteAccount req.ID s with
      | (.error err, s1) =>
        if err = GoError.ErrNoRows then
          (ctx.JSON StatusNotFound (errorResponse err), s1)
        else
          (ctx.JSON StatusInternalServerError (errorResponse err), s1)
      | (.ok _, s1) =>
        (ctx.JSON StatusOK (Payload.bool true), s1)

/-- The handler `updateAccount`. -/
def Server.updateAccount {σ L G R : Type} (server : Server σ L G R)
    (GetTokenInHeaderAndVerify : TokenVerifier (Payload L G R))
    (ShouldBindJSON : Binder (Payload L G R) updateAccountRequest)
    (ctx0 : Context (Payload L G R)) (s : σ) : Context (Payload L G R) × σ :=
  match GetTokenInHeaderAndVerify ctx0 with
  | (some _, ctx) => (ctx, s)
  | (none, ctx) =>
    match ShouldBindJSON ctx with
    | .error err => (ctx.JSON StatusBadRequest (errorResponse err), s)
    | .ok req =>
      let arg : UpdateAccountParams :=
        { ID := req.ID
          Title := req.Title
          Description := req.Description
          Value := req.Value }
      match server.store.UpdateAccount arg s with
      | (.error err, s1) =>
        (ctx.JSON StatusInternalServerError (errorResponse err), s1)
      | (.ok account, s1) =>
        (ctx.JSON StatusOK (Payload.account account), s1)

/-- The handler `getAccounts`. -/
def Server.getAccounts {σ L G R : Type} (server : Server σ L G R)
    (GetTokenInHeaderAndVerify : TokenVerifier (Payload L G R))
    (ShouldBindQuery : Binder (Payload L G R) getAccountsRequest)
    (ctx0 : Context (Payload L G R)) (s : σ) : Context (Payload L G R) × σ :=
  match GetTokenInHeaderAndVerify ctx0 with
  | (some _, ctx) => (ctx, s)
  | (none, ctx) =>
    match ShouldBindQuery ctx with
    | .error err => (ctx.JSON StatusBadRequest (Payload.rawError err), s)
    | .ok req =>
      let arg : GetAccountsParams :=
        { UserID := req.UserID
          Type_ := req.Type_
          CategoryID := req.CategoryID
          Title := req.Title
          Description := req.Description
          Date := req.Date }
      match server.store.GetAccounts arg s with
      | (.error err, s1) =>
        (ctx.JSON StatusInternalServerError (errorResponse err), s1)
      | (.ok categories, s1) =>
        (ctx.JSON StatusOK (Payload.listing categories), s1)

/-- The handler `getAccountGraph`. -/
def Server.getAccountGraph {σ L G R : Type} (server : Server σ L G R)
    (GetTokenInHeaderAndVerify : TokenVerifier (Payload L G R))
    (ShouldBindUri : Binder (Payload L G R) getAccountsGraphRequest)
    (ctx0 : Context (Payload L G R)) (s : σ) : Context (Payload L G R) × σ :=
  match GetTokenInHeaderAndVerify ctx0 with
  | (some _, ctx) => (ctx, s)
  | (none, ctx) =>
    match ShouldBindUri ctx with
    | .error err => (ctx.JSON StatusBadRequest (Payload.rawError err), s)
    | .ok req =>
      let arg : GetAccountsGraphParams := { UserID := req.UserID, Type_ := req.Type_ }
      match server.store.GetAccountsGraph arg s with
      | (.error err, s1) =>
        (ctx.JSON StatusInternalServerError (errorResponse err), s1)
      | (.ok countGraph, s1) =>
        (ctx.JSON StatusOK (Payload.graph countGraph), s1)

/-- The handler `getAccountsReports`. -/
def Server.getAccountsReports {σ L G R : Type} (server : Server σ L G R)
    (GetTokenInHeaderAndVerify : TokenVerifier (Payload L G R))
    (ShouldBindUri : Binder (Payload L G R) getAccountsReportsRequest)
    (ctx0 : Context (Payload L G R)) (s : σ) : Context (Payload L G R) × σ :=
  match GetTokenInHeaderAndVerify ctx0 with
  | (some _, ctx) => (ctx, s)
  | (none, ctx) =>
    match ShouldBindUri ctx with
    | .error err => (ctx.JSON StatusBadRequest (Payload.rawError err), s)
    | .ok req =>
      let arg : GetAccountsReportsParams := { UserID := req.UserID, Type_ := req.Type_ }
      match server.store.GetAccountsReports arg s with
      | (.error err, s1) =>
        (ctx.JSON StatusInternalServerError (errorResponse err), s1)
      | (.ok sumReports, s1) =>
        (ctx.JSON StatusOK (Payload.reports sumReports), s1)

/-! ## Recording the store calls

A handler cannot tell one store from another, so the calls it makes are
observed by running it on a store that records them. -/

/-- The database together with the log of the store calls made on it, oldest
first. -/
structure Traced (σ : Type) where
  db : σ
  calls : List StoreCall

/-- Runs a store operation on the database and appends the call to the log. -/
def Traced.record {σ α : Type} (call : StoreCall) (op : σ → α × σ) (w : Traced σ) :
    α × Traced σ :=
  ((op w.db).1, { db := (op w.db).2, calls := w.calls ++ [call] })

/-- The store that behaves as `st` and records every call. -/
def Store.traced {σ L G R : Type} (st : Store σ L G R) : Store (Traced σ) L G R :=
  { GetCategory := fun id => Traced.record (StoreCall.GetCategory id) (st.GetCategory id)
    CreateAccount := fun arg => Traced.record (StoreCall.CreateAccount arg) (st.CreateAccount arg)
    GetAccount := fun id => Traced.record (StoreCall.GetAccount id) (st.GetAccount id)
    DeleteAccount := fun id => Traced.record (StoreCall.DeleteAccount id) (st.DeleteAccount id)
    UpdateAccount := fun arg => Traced.record (StoreCall.UpdateAccount arg) (st.UpdateAccount arg)
    GetAccounts := fun arg => Traced.record (StoreCall.GetAccounts arg) (st.GetAccounts arg)
    GetAccountsGraph := fun arg =>
      Traced.record (StoreCall.GetAccountsGraph arg) (st.GetAccountsGraph arg)
    GetAccountsReports := fun arg =>
      Traced.record (StoreCall.GetAccountsReports arg) (st.GetAccountsReports arg) }

/-- The server whose store records every call. -/
def Server.traced {σ L G R : Type} (server : Server σ L G R) : Server (Traced σ) L G R :=
  { store := server.store.traced }

/-! ## `db/sqlc/category.sql.go` -/

/-- A value bound to a `$n` placeholder of a statement. -/
inductive SqlValue where
  | int (n : Int)
  | text (s : String)
deriving DecidableEq, Repr

/-- The `sql.Result` of an executed statement. -/
structure SqlResult where
  RowsAffected : Nat
deriving DecidableEq, Repr

/-- The `*sql.Rows` cursor of a query over `categories`: for each row that
`rows.Next()` yields, what `rows.Scan` returns for it; then what `rows.Close()`
and `rows.Err()` return. -/
structure Rows where
  scans : List (Except GoError Category)
  closeErr : Option GoError
  err : Option GoError

/-- The `DBTX` interface, as used by the category queries.  `QueryRowContext`
is taken together with the `row.Scan` that follows it. -/
structure DBTX (σ : Type) where
  ExecContext : String → List SqlValue → σ → Except GoError SqlResult × σ
  QueryContext : String → List SqlValue → σ → Except GoError Rows × σ
  QueryRowContext : String → List SqlValue → σ → Except GoError Category × σ

/-- The struct `Queries`. -/
structure Queries (σ : Type) where
  db : DBTX σ

/-- The statement `createCategory`. -/
def createCategory : String :=
  "-- name: CreateCategory :one\nINSERT INTO categories (\n    user_id,\n    title,\n    type,\n    description\n) VALUES (\n   $1, $2, $3, $4\n) RETURNING id, user_id, title, type, description, created_at\n"

/-- The statement `deleteCategory`. -/
def deleteCategory : String :=
  "-- name: DeleteCategory :exec\nDELETE FROM categories WHERE id = $1\n"

/-- The statement `getCategories`. -/
def getCategories : String :=
  "-- name: GetCategories :many\nSELECT id, user_id, title, type, description, created_at FROM categories WHERE user_id = $1 AND type = $2 AND title LIKE $3 AND description LIKE $4\n"

/-- The statement `getCategory`. -/
def getCategory : String :=
  "-- name: GetCategory :one\nSELECT id, user_id, title, type, description, created_at FROM categories WHERE id = $1 LIMIT 1\n"

/-- The statement `updateCategory`. -/
def updateCategory : String :=
  "-- name: UpdateCategory :one\nUPDATE categories SET title = $2, description = $3 WHERE id = $1 RETURNING id, user_id, title, type, description, created_at\n"

/-- The struct `CreateCategoryParams`. -/
structure CreateCategoryParams where
  UserID : Int
  Title : String
  Type_ : String
  Description : String
deriving DecidableEq, Repr

/-- The struct `GetCategoriesParams`. -/
structure GetCategoriesParams where
  UserID : Int
  Type_ : String
  Title : String
  Description : String
deriving DecidableEq, Repr

/-- The struct `UpdateCategoryParams`. -/
structure UpdateCategoryParams where
  ID : Int
  Title : String
  Description : String
deriving DecidableEq, Repr

/-- The query `CreateCategory`. -/
def Queries.CreateCategory {σ : Type} (q : Queries σ) (arg : CreateCategoryParams) (s : σ) :
    Except GoError Category × σ :=
  q.db.QueryRowContext createCategory
    [SqlValue.int arg.UserID, SqlValue.text arg.Title, SqlValue.text arg.Type_,
      SqlValue.text arg.Description] s

/-- The query `DeleteCategory`: the Go `error` it returns (`none` is nil) and
the database state. -/
def Queries.DeleteCategory {σ : Type} (q : Queries σ) (id : Int) (s : σ) :
    Option GoError × σ :=
  match q.db.ExecContext deleteCategory [SqlValue.int id] s with
  | (.ok _, s1) => (none, s1)
  | (.error err, s1) => (some err, s1)

/-- The loop `for rows.Next()` of `GetCategories`: the rows scanned so far are
in `items`; the first failing `rows.Scan` ends the query with its error. -/
def scanRows : List (Except GoError Category) → List Category → Except GoError (List Category)
  | [], items => .ok items
  | .error err :: _, _ => .error err
  | .ok i :: rest, items => scanRows rest (items ++ [i])

/-- The query `GetCategories`. -/
def Queries.GetCategories {σ : Type} (q : Queries σ) (arg : GetCategoriesParams) (s : σ) :
    Except GoError (List Category) × σ :=
  match q.db.QueryContext getCategories
      [SqlValue.int arg.UserID, SqlValue.text arg.Type_, SqlValue.text arg.Title,
        SqlValue.text arg.Description] s with
  | (.error err, s1) => (.error err, s1)
  | (.ok rows, s1) =>
    match scanRows rows.scans [] with
    | .error err => (.error err, s1)
    | .ok items =>
      match rows.closeErr with
      | some err => (.error err, s1)
      | none =>
        match rows.err with
        | some err => (.error err, s1)
        | none => (.ok items, s1)

/-- The query `GetCategory`. -/
def Queries.GetCategory {σ : Type} (q : Queries σ) (id : Int) (s : σ) :
    Except GoError Category × σ :=
  q.db.QueryRowContext getCategory [SqlValue.int id] s

/-- The query `UpdateCategory`. -/
def Queries.UpdateCategory {σ : Type} (q : Queries σ) (arg : UpdateCategoryParams) (s : σ) :
    Except GoError Category × σ :=
  q.db.QueryRowContext updateCategory
    [SqlValue.int arg.ID, SqlValue.text arg.Title, SqlValue.text arg.Description] s

/-! ## The statements over a table

The meaning of the five statements over a `categories` table held as a list of
rows, which gives a `DBTX` to run the queries against. -/

/-- The SQL predicate `s LIKE pattern`, pattern first: `%` matches any run of
characters, `_` any one character, a backslash makes the next pattern
character literal, and every other pattern character matches itself.  A
pattern that ends in a lone backslash matches nothing. -/
def likeMatch : List Char → List Char → Bool
  | [], s => s.isEmpty
  | p :: ps, s =>
    if p = '%' then
      s.tails.any (fun t => likeMatch ps t)
    else if p = '_' then
      match s with
      | [] => false
      | _ :: t => likeMatch ps t
    else if p = '\\' then
      match ps, s with
      | q :: qs, c :: t => c == q && likeMatch qs t
      | _, _ => false
    else
      match s with
      | [] => false
      | c :: t => c == p && likeMatch ps t

/-- The predicate `column LIKE $n` on text values. -/
def sqlLike (column pattern : String) : Bool :=
  likeMatch pattern.data column.data

/-- The `categories` table: its rows, the next value of the `id` sequence and
the clock that stamps `created_at`. -/
structure CategoryTable where
  rows : List Category
  nextID : Int
  now : Int
deriving DecidableEq, Repr

/-- The `WHERE` clause of `getCategories`. -/
def getCategoriesWhere (userID : Int) (type title description : String) (c : Category) : Bool :=
  c.UserID == userID && c.Type_ == type && sqlLike c.Title title
    && sqlLike c.Description description

/-- A table-backed `ExecContext`. -/
def tableExec (query : String) (args : List SqlValue) (t : CategoryTable) :
    Except GoError SqlResult × CategoryTable :=
  if query = deleteCategory then
    match args with
    | [SqlValue.int id] =>
      (.ok { RowsAffected := (t.rows.filter (fun c => c.ID == id)).length },
        { t with rows := t.rows.filter (fun c => c.ID != id) })
    | _ => (.error (GoError.other "bind message supplies the wrong parameters"), t)
  else
    (.error (GoError.other "statement not supported"), t)

/-- A table-backed `QueryContext`. -/
def tableQuery (query : String) (args : List SqlValue) (t : CategoryTable) :
    Except GoError Rows × CategoryTable :=
  if query = getCategories then
    match args with
    | [SqlValue.int userID, SqlValue.text type, SqlValue.text title, SqlValue.text description] =>
      (.ok { scans := (t.rows.filter (getCategoriesWhere userID type title description)).map
                (fun c => Except.ok c)
             closeErr := none
             err := none }, t)
    | _ => (.error (GoError.other "bind message supplies the wrong parameters"), t)
  else
    (.error (GoError.other "statement not supported"), t)

/-- A table-backed `QueryRowContext` followed by `row.Scan`; a statement that
yields no row scans to `sql.ErrNoRows`. -/
def tableQueryRow (query : String) (args : List SqlValue) (t : CategoryTable) :
    Except GoError Category × CategoryTable :=
  if query = createCategory then
    match args with
    | [SqlValue.int userID, SqlValue.text title, SqlValue.text type, SqlValue.text description] =>
      let row : Category :=
        { ID := t.nextID, UserID := userID, Title := title, Type_ := type,
          Description := description, CreatedAt := t.now }
      (.ok row, { t with rows := t.rows ++ [row], nextID := t.nextID + 1 })
    | _ => (.error (GoError.other "bind message supplies the wrong parameters"), t)
  else if query = getCategory then
    match args with
    | [SqlValue.int id] =>
      match t.rows.find? (fun c => c.ID == id) with
      | some c => (.ok c, t)
      | none => (.error GoError.ErrNoRows, t)
    | _ => (.error (GoError.other "bind message supplies the wrong parameters"), t)
  else if query = updateCategory then
    match args with
    | [SqlValue.int id, SqlValue.text title, SqlValue.text description] =>
      let rows := t.rows.map (fun c =>
        if c.ID == id then { c with Title := title, Description := description } else c)
      match rows.find? (fun c => c.ID == id) with
      | some c => (.ok c, { t with rows := rows })
      | none => (.error GoError.ErrNoRows, t)
    | _ => (.error (GoError.other "bind message supplies the wrong parameters"), t)
  else
    (.error (GoError.other "statement not supported"), t)

/-- The table-backed database connection. -/
def tableDB : DBTX CategoryTable :=
  { ExecContext := tableExec
    QueryContext := tableQuery
    QueryRowContext := tableQueryRow }

/-- The generated queries over the table-backed connection. -/
def tableQueries : Queries CategoryTable :=
  { db := tableDB }

/-! ## A store over tables

The account queries are generated into a file of their own; here they are
given over a table of accounts, next to the category queries above. -/

/-- The database: whether the connection is up, the `categories` table, the
`accounts` rows, the next value of the accounts' `id` sequence and the clock
that stamps `created_at`. -/
structure Database where
  online : Bool
  categories : CategoryTable
  accounts : List Account
  nextAccountID : Int
  now : Int
deriving DecidableEq, Repr

/-- The error every operation returns while the connection is down. -/
def connectionRefused : GoError :=
  GoError.other "dial tcp: connection refused"

/-- Modelled from the spec: the `WHERE` clause of the store's `GetAccounts`
query, which is generated outside the three source files.  User and type are
required and matched exactly.  Each of the optional filters applies when it is
present: LIKE-style matching on title and description, exact match on
category and date.  An optional filter that is empty (the empty string, the
zero identifier, the zero date) matches everything. -/
def getAccountsWhere (arg : GetAccountsParams) (a : Account) : Bool :=
  a.UserID == arg.UserID && a.Type_ == arg.Type_
    && (arg.CategoryID == 0 || a.CategoryID == arg.CategoryID)
    && (arg.Title == "" || sqlLike a.Title arg.Title)
    && (arg.Description == "" || sqlLike a.Description arg.Description)
    && (arg.Date == 0 || a.Date == arg.Date)

/-- The filters of `GetAccounts` other than the title filter; no title is
consulted. -/
def getAccountsWhereOther (arg : GetAccountsParams) (a : Account) : Bool :=
  a.UserID == arg.UserID && a.Type_ == arg.Type_
    && (arg.CategoryID == 0 || a.CategoryID == arg.CategoryID)
    && (arg.Description == "" || sqlLike a.Description arg.Description)
    && (arg.Date == 0 || a.Date == arg.Date)

/-- Modelled from the spec: the store's `GetAccounts`, the accounts that pass
the filters that are present, in table order; a storage failure is an
error. -/
def Database.GetAccounts (arg : GetAccountsParams) (d : Database) :
    Except GoError (List Account) × Database :=
  if d.online then (.ok (d.accounts.filter (getAccountsWhere arg)), d)
  else (.error connectionRefused, d)

/-- The store's `GetCategory`: the generated query `GetCategory` run on the
`categories` table. -/
def Database.GetCategory (id : Int) (d : Database) : Except GoError Category × Database :=
  if d.online then
    match tableQueries.GetCategory id d.categories with
    | (r, t) => (r, { d with categories := t })
  else (.error connectionRefused, d)

/-- Modelled from the spec: the store's `CreateAccount`, which persists a new
row and returns it with an assigned identifier and creation timestamp. -/
def Database.CreateAccount (arg : CreateAccountParams) (d : Database) :
    Except GoError Account × Database :=
  if d.online then
    let row : Account :=
      { ID := d.nextAccountID, UserID := arg.UserID, CategoryID := arg.CategoryID,
        Title := arg.Title, Type_ := arg.Type_, Description := arg.Description,
        Value := arg.Value, Date := arg.Date, CreatedAt := d.now }
    (.ok row, { d with accounts := d.accounts ++ [row], nextAccountID := d.nextAccountID + 1 })
  else (.error connectionRefused, d)

/-- Modelled from the spec: the store's `GetAccount`, a lookup by identifier
that reports "no such row" as `sql.ErrNoRows`. -/
def Database.GetAccount (id : Int) (d : Database) : Except GoError Account × Database :=
  if d.online then
    match d.accounts.find? (fun a => a.ID == id) with
    | some a => (.ok a, d)
    | none => (.error GoError.ErrNoRows, d)
  else (.error connectionRefused, d)

/-- Modelled from the spec: the store's `DeleteAccount`, a delete by
identifier for which "no rows affected" is reported like a lookup miss. -/
def Database.DeleteAccount (id : Int) (d : Database) : Except GoError Unit × Database :=
  if d.online then
    if d.accounts.any (fun a => a.ID == id) then
      (.ok (), { d with accounts := d.accounts.filter (fun a => a.ID != id) })
    else (.error GoError.ErrNoRows, d)
  else (.error connectionRefused, d)

/-- Modelled from the spec: the store's `UpdateAccount`, whose statement
overwrites title, description and value of the row with the given identifier
with whatever was bound and returns the updated row; a non-existent identifier
is a failure. -/
def Database.UpdateAccount (arg : UpdateAccountParams) (d : Database) :
    Except GoError Account × Database :=
  if d.online then
    let rows := d.accounts.map (fun a =>
      if a.ID == arg.ID then
        { a with Title := arg.Title, Description := arg.Description, Value := arg.Value }
      else a)
    match rows.find? (fun a => a.ID == arg.ID) with
    | some a => (.ok a, { d with accounts := rows })
    | none => (.error GoError.ErrNoRows, d)
  else (.error connectionRefused, d)

/-- Modelled from the spec: the store's `GetAccountsGraph`, a count-oriented
aggregation over the accounts of a user and type; an empty result set is a
valid result. -/
def Database.GetAccountsGraph (arg : GetAccountsGraphParams) (d : Database) :
    Except GoError Int × Database :=
  if d.online then
    (.ok ((d.accounts.filter
      (fun a => a.UserID == arg.UserID && a.Type_ == arg.Type_)).length : Int), d)
  else (.error connectionRefused, d)

/-- Modelled from the spec: the store's `GetAccountsReports`, a sum-oriented
aggregation over the accounts of a user and type; an empty result set is a
valid result. -/
def Database.GetAccountsReports (arg : GetAccountsReportsParams) (d : Database) :
    Except GoError Int × Database :=
  if d.online then
    (.ok (((d.accounts.filter
      (fun a => a.UserID == arg.UserID && a.Type_ == arg.Type_)).map (fun a => a.Value)).sum), d)
  else (.error connectionRefused, d)

/-- The store over tables. -/
def tableStore : Store Database (List Account) Int Int :=
  { GetCategory := Database.GetCategory
    CreateAccount := Database.CreateAccount
    GetAccount := Database.GetAccount
    DeleteAccount := Database.DeleteAccount
    UpdateAccount := Database.UpdateAccount
    GetAccounts := Database.GetAccounts
    GetAccountsGraph := Database.GetAccountsGraph
    GetAccountsReports := Database.GetAccountsReports }

/-- The server over the table store. -/
def tableServer : Server Database (List Account) Int Int :=
  { store := tableStore }

/-- The payload type of the table server's responses. -/
abbrev TablePayload := Payload (List Account) Int Int

/-! ## Request binding of `updateAccountRequest` -/

/-- The keys of a decoded JSON request body that `updateAccountRequest` names
in its `json` tags; a key the body omits is `none`. -/
structure updateAccountBody where
  id : Option Int
  title : Option String
  description : Option String
  value : Option Int
deriving DecidableEq, Repr

/-- What `ShouldBindJSON` does at `updateAccountRequest`: a body that fails to
decode is an error; a field whose key is omitted keeps its zero value; `ID`,
tagged `binding:"required"`, is rejected when it is the zero value. -/
def bindUpdateAccountRequest (body : Except GoError updateAccountBody) :
    Except GoError updateAccountRequest :=
  match body with
  | .error err => .error err
  | .ok b =>
    let req : updateAccountRequest :=
      { ID := b.id.getD 0
        Title := b.title.getD ""
        Description := b.description.getD ""
        Value := b.value.getD 0 }
    if req.ID = 0 then
      .error (GoError.other "Field validation for ID failed on the required tag")
    else .ok req

/-! ## Sample requests and tables -/

/-- A token verifier that accepts the request. -/
def tokenAccepted {β : Type} : TokenVerifier β :=
  fun c => (none, c)

/-- A token verifier that rejects the request with an unauthorized response. -/
def tokenRejected {β : Type} : TokenVerifier β :=
  fun c => (some (GoError.other "token invalid"), c.AbortWithStatus 401)

/-- A request context before any handler has run. -/
def freshContext {β : Type} (method : String) : Context β :=
  { Method := method, Header := [], Status := none, Body := none, Aborted := false }

/-- The category 5 of user 1, of type "expense". -/
def sampleCategory : Category :=
  { ID := 5, UserID := 1, Title := "Housing", Type_ := "expense",
    Description := "Housing costs", CreatedAt := 100 }

/-- The account 1 of user 1: the rent, in category 5. -/
def sampleAccount : Account :=
  { ID := 1, UserID := 1, CategoryID := 5, Title := "Rent", Type_ := "expense",
    Description := "Monthly rent", Value := 150000, Date := 1704067200, CreatedAt := 200 }

/-- A database holding the sample category and the sample account. -/
def sampleDatabase : Database :=
  { online := true
    categories := { rows := [sampleCategory], nextID := 6, now := 300 }
    accounts := [sampleAccount]
    nextAccountID := 2
    now := 300 }

/-- The account 2 of user 1: an expense in category 5 recorded without a
title. -/
def untitledAccount : Account :=
  { ID := 2, UserID := 1, CategoryID := 5, Title := "", Type_ := "expense",
    Description := "Cash", Value := 900, Date := 1704067200, CreatedAt := 250 }

/-- The sample database with the untitled account added. -/
def mixedDatabase : Database :=
  { sampleDatabase with accounts := [sampleAccount, untitledAccount], nextAccountID := 3 }

/-- The sample database with its connection down. -/
def offlineDatabase : Database :=
  { sampleDatabase with online := false }

/-- A Create Account request for the rent in category 5, of the given type. -/
def sampleCreate (type : String) : createAccountRequest :=
  { UserID := 1, CategoryID := 5, Title := "Rent", Type_ := type,
    Description := "Monthly rent", Value := 150000, Date := 1704067200 }

/-- A List Accounts request for the expenses of user 1 in category 5 on the
date of the sample account, any description, with the given title filter. -/
def sampleList (title : String) : getAccountsRequest :=
  { UserID := 1, Type_ := "expense", CategoryID := 5, Title := title,
    Description := "%", Date := 1704067200 }

/-! ## The shapes of the handlers' contracts -/

/-- A handler, run on a recording store, is guarded by token verification and
binding, in that order: when the verifier returns an error the handler returns
at once, whatever the binder, leaving the context as the verifier left it and
the database and the call log as they were; when the verifier accepts and the
binder returns an error the response is 400, with the database and the call
log as they were; and a call log that has changed means both succeeded. -/
def GuardedByTokenAndBinding {σ β Req : Type}
    (handler : TokenVerifier β → Binder β Req → Context β → Traced σ → Context β × Traced σ) :
    Prop :=
  ∀ (verify : TokenVerifier β) (bind : Binder β Req) (ctx0 : Context β) (w : Traced σ),
    (∀ (err : GoError) (ctx : Context β), verify ctx0 = (some err, ctx) →
        ∀ bind2 : Binder β Req, handler verify bind2 ctx0 w = (ctx, w))
      ∧ (∀ (ctx : Context β) (err : GoError), verify ctx0 = (none, ctx) →
          bind ctx = .error err →
            (handler verify bind ctx0 w).1.Status = some 400
              ∧ (handler verify bind ctx0 w).2 = w)
      ∧ ((handler verify bind ctx0 w).2.calls ≠ w.calls →
          ∃ (ctx : Context β) (req : Req), verify ctx0 = (none, ctx) ∧ bind ctx = .ok req)

/-- A handler has no NotFound case: for a request that passes token
verification and binds to `req`, an error of the store operation `op req`,
whichever it is, gives status 500 and a success gives status 200 with the
store's result, wrapped by `payload`, as body; and whenever the token is
accepted the status is not 404. -/
def InternalOrOK {σ β Req T : Type}
    (handler : TokenVerifier β → Binder β Req → Context β → σ → Context β × σ)
    (op : Req → σ → Except GoError T × σ) (payload : T → β) : Prop :=
  ∀ (verify : TokenVerifier β) (bind : Binder β Req) (ctx0 ctx : Context β) (s : σ),
    verify ctx0 = (none, ctx) →
      (∀ req : Req, bind ctx = .ok req →
          (∀ (err : GoError) (s1 : σ), op req s = (.error err, s1) →
              (handler verify bind ctx0 s).1.Status = some 500)
            ∧ (∀ (r : T) (s1 : σ), op req s = (.ok r, s1) →
              (handler verify bind ctx0 s).1.Status = some 200
                ∧ (handler verify bind ctx0 s).1.Body = some (payload r)))
        ∧ (handler verify bind ctx0 s).1.Status ≠ some 404

/-! ## The recording store is transparent -/

/-- Recording the store calls changes neither the response of `createAccount` nor
the database it leaves, and keeps the calls already in the log. -/
theorem createAccount_traced {σ L G R : Type} (server : Server σ L G R)
    (verify : TokenVerifier (Payload L G R)) (bind : Binder (Payload L G R) _)
    (ctx0 : Context (Payload L G R)) (w : Traced σ) :
    (server.traced.createAccount verify bind ctx0 w).1 = (server.createAccount verify bind ctx0 w.db).1
      ∧ (server.traced.createAccount verify bind ctx0 w).2.db
          = (server.createAccount verify bind ctx0 w.db).2
      ∧ w.calls <+: (server.traced.createAccount verify bind ctx0 w).2.calls := by
  rcases hv : verify ctx0 with ⟨_ | e, ctx⟩
  · cases hb : bind ctx with
    | error e => simp [Server.createAccount, hv, hb]
    | ok req =>
      rcases hc : server.store.GetCategory req.CategoryID w.db with ⟨_ | category, s1⟩
      · simp [Server.createAccount, Server.traced, Store.traced, Traced.record, hv, hb, hc]
      · by_cases ht : category.Type_ = req.Type_
        · rcases hi : server.store.CreateAccount
              { UserID := req.UserID, CategoryID := req.CategoryID, Title := req.Title,
                Type_ := req.Type_, Description := req.Description, Value := req.Value,
                Date := req.Date } s1 with ⟨_ | _, s2⟩ <;>
            simp [Server.createAccount, Server.traced, Store.traced, Traced.record, hv, hb, hc,
              ht, hi, List.append_assoc]
        · simp [Server.createAccount, Server.traced, Store.traced, Traced.record, hv, hb, hc,
            ht]
  · simp [Server.createAccount, hv]

/-- Recording the store calls changes neither the response of `getAccount` nor
the database it leaves, and keeps the calls already in the log. -/
theorem getAccount_traced {σ L G R : Type} (server : Server σ L G R)
    (verify : TokenVerifier (Payload L G R)) (bind : Binder (Payload L G R) _)
    (ctx0 : Context (Payload L G R)) (w : Traced σ) :
    (server.traced.getAccount verify bind ctx0 w).1 = (server.getAccount verify bind ctx0 w.db).1
      ∧ (server.traced.getAccount verify bind ctx0 w).2.db
          = (server.getAccount verify bind ctx0 w.db).2
      ∧ w.calls <+: (server.traced.getAccount verify bind ctx0 w).2.calls := by
  rcases hv : verify ctx0 with ⟨_ | e, ctx⟩
  · cases hb : bind ctx with
    | error e => simp [Server.getAccount, hv, hb]
    | ok req =>
      rcases hc : server.store.GetAccount req.ID w.db with ⟨err | _, s1⟩
      · by_cases he : err = GoError.ErrNoRows <;>
          simp [Server.getAccount, Server.traced, Store.traced, Traced.record, hv, hb, hc, he]
      · simp [Server.getAccount, Server.traced, Store.traced, Traced.record, hv, hb, hc]
  · simp [Server.getAccount, hv]

/-- Recording the store calls changes neither the response of `deleteAccount` nor
the database it leaves, and keeps the calls already in the log. -/
theorem deleteAccount_traced {σ L G R : Type} (server : Server σ L G R)
    (verify : TokenVerifier (Payload L G R)) (bind : Binder (Payload L G R) _)
    (ctx0 : Context (Payload L G R)) (w : Traced σ) :
    (server.traced.deleteAccount verify bind ctx0 w).1 = (server.deleteAccount verify bind ctx0 w.db).1
      ∧ (server.traced.deleteAccount verify bind ctx0 w).2.db
          = (server.deleteAccount verify bind ctx0 w.db).2
      ∧ w.calls <+: (server.traced.deleteAccount verify bind ctx0 w).2.calls := by
  rcases hv : verify ctx0 with ⟨_ | e, ctx⟩
  · cases hb : bind ctx with
    | error e => simp [Server.deleteAccount, hv, hb]
    | ok req =>
      rcases hc : server.store.DeleteAccount req.ID w.db with ⟨err | _, s1⟩
      · by_cases he : err = GoError.ErrNoRows <;>
          simp [Server.deleteAccount, Server.traced, Store.traced, Traced.record, hv, hb, hc, he]
      · simp [Server.deleteAccount, Server.traced, Store.traced, Traced.record, hv, hb, hc]
  · simp [Server.deleteAccount, hv]

/-- Recording the store calls changes neither the response of `updateAccount` nor
the database it leaves, and keeps the calls already in the log. -/
theorem updateAccount_traced {σ L G R : Type} (server : Server σ L G R)
    (verify : TokenVerifier (Payload L G R)) (bind : Binder (Payload L G R) _)
    (ctx0 : Context (Payload L G R)) (w : Traced σ) :
    (server.traced.updateAccount verify bind ctx0 w).1 = (server.updateAccount verify bind ctx0 w.db).1
      ∧ (server.traced.updateAccount verify bind ctx0 w).2.db
          = (server.updateAccount verify bind ctx0 w.db).2
      ∧ w.calls <+: (server.traced.updateAccount verify bind ctx0 w).2.calls := by
  rcases hv : verify ctx0 with ⟨_ | e, ctx⟩
  · cases hb : bind ctx with
    | error e => simp [Server.updateAccount, hv, hb]
    | ok req =>
      rcases hc : server.store.UpdateAccount
          { ID := req.ID, Title := req.Title, Description := req.Description,
            Value := req.Value } w.db with ⟨err | _, s1⟩
      · by_cases he : err = GoError.ErrNoRows <;>
          simp [Server.updateAccount, Server.traced, Store.traced, Traced.record, hv, hb, hc, he]
      · simp [Server.updateAccount, Server.traced, Store.traced, Traced.record, hv, hb, hc]
  · simp [Server.updateAccount, hv]

/-- Recording the store calls changes neither the response of `getAccounts` nor
the database it leaves, and keeps the calls already in the log. -/
theorem getAccounts_traced {σ L G R : Type} (server : Server σ L G R)
    (verify : TokenVerifier (Payload L G R)) (bind : Binder (Payload L G R) _)
    (ctx0 : Context (Payload L G R)) (w : Traced σ) :
    (server.traced.getAccounts verify bind ctx0 w).1 = (server.getAccounts verify bind ctx0 w.db).1
      ∧ (server.traced.getAccounts verify bind ctx0 w).2.db
          = (server.getAccounts verify bind ctx0 w.db).2
      ∧ w.calls <+: (server.traced.getAccounts verify bind ctx0 w).2.calls := by
  rcases hv : verify ctx0 with ⟨_ | e, ctx⟩
  · cases hb : bind ctx with
    | error e => simp [Server.getAccounts, hv, hb]
    | ok req =>
      rcases hc : server.store.GetAccounts
          { UserID := req.UserID, Type_ := req.Type_, CategoryID := req.CategoryID,
            Title := req.Title, Description := req.Description, Date := req.Date } w.db with ⟨err | _, s1⟩
      · by_cases he : err = GoError.ErrNoRows <;>
          simp [Server.getAccounts, Server.traced, Store.traced, Traced.record, hv, hb, hc, he]
      · simp [Server.getAccounts, Server.traced, Store.traced, Traced.record, hv, hb, hc]
  · simp [Server.getAccounts, hv]

/-- Recording the store calls changes neither the response of `getAccountGraph` nor
the database it leaves, and keeps the calls already in the log. -/
theorem getAccountGraph_traced {σ L G R : Type} (server : Server σ L G R)
    (verify : TokenVerifier (Payload L G R)) (bind : Binder (Payload L G R) _)
    (ctx0 : Context (Payload L G R)) (w : Traced σ) :
    (server.traced.getAccountGraph verify bind ctx0 w).1 = (server.getAccountGraph verify bind ctx0 w.db).1
      ∧ (server.traced.getAccountGraph verify bind ctx0 w).2.db
          = (server.getAccountGraph verify bind ctx0 w.db).2
      ∧ w.calls <+: (server.traced.getAccountGraph verify bind ctx0 w).2.calls := by
  rcases hv : verify ctx0 with ⟨_ | e, ctx⟩
  · cases hb : bind ctx with
    | error e => simp [Server.getAccountGraph, hv, hb]
    | ok req =>
      rcases hc : server.store.GetAccountsGraph { UserID := req.UserID, Type_ := req.Type_ } w.db with ⟨err | _, s1⟩
      · by_cases he : err = GoError.ErrNoRows <;>
          simp [Server.getAccountGraph, Server.traced, Store.traced, Traced.record, hv, hb, hc, he]
      · simp [Server.getAccountGraph, Server.traced, Store.traced, Traced.record, hv, hb, hc]
  · simp [Server.getAccountGraph, hv]

/-- Recording the store calls changes neither the response of `getAccountsReports` nor
the database it leaves, and keeps the calls already in the log. -/
theorem getAccountsReports_traced {σ L G R : Type} (server : Server σ L G R)
    (verify : TokenVerifier (Payload L G R)) (bind : Binder (Payload L G R) _)
    (ctx0 : Context (Payload L G R)) (w : Traced σ) :
    (server.traced.getAccountsReports verify bind ctx0 w).1 = (server.getAccountsReports verify bind ctx0 w.db).1
      ∧ (server.traced.getAccountsReports verify bind ctx0 w).2.db
          = (server.getAccountsReports verify bind ctx0 w.db).2
      ∧ w.calls <+: (server.traced.getAccountsReports verify bind ctx0 w).2.calls := by
  rcases hv : verify ctx0 with ⟨_ | e, ctx⟩
  · cases hb : bind ctx with
    | error e => simp [Server.getAccountsReports, hv, hb]
    | ok req =>
      rcases hc : server.store.GetAccountsReports { UserID := req.UserID, Type_ := req.Type_ } w.db with ⟨err | _, s1⟩
      · by_cases he : err = GoError.ErrNoRows <;>
          simp [Server.getAccountsReports, Server.traced, Store.traced, Traced.record, hv, hb, hc, he]
      · simp [Server.getAccountsReports, Server.traced, Store.traced, Traced.record, hv, hb, hc]
  · simp [Server.getAccountsReports, hv]

/-! ## Properties of `createAccount` -/

/-- C1: for a Create Account request that passes token verification and
binding, when the category the store's `GetCategory` returns for the request's
`category_id` has a type different from the request's type, `createAccount`
responds with status 400, makes no `CreateAccount` call (its only store call is
the lookup), and leaves the database as the lookup left it. -/
theorem createAccount_type_mismatch {σ L G R : Type} (server : Server σ L G R)
    (verify : TokenVerifier (Payload L G R))
    (bind : Binder (Payload L G R) createAccountRequest)
    (ctx0 ctx : Context (Payload L G R)) (s s1 : σ)
    (req : createAccountRequest) (category : Category)
    (hv : verify ctx0 = (none, ctx)) (hb : bind ctx = .ok req)
    (hc : server.store.GetCategory req.CategoryID s = (.ok category, s1))
    (ht : category.Type_ ≠ req.Type_) :
    (server.traced.createAccount verify bind ctx0 ⟨s, []⟩).1.Status = some 400
      ∧ (∀ call ∈ (server.traced.createAccount verify bind ctx0 ⟨s, []⟩).2.calls,
          call.isCreateAccount = false)
      ∧ (server.traced.createAccount verify bind ctx0 ⟨s, []⟩).2.calls
          = [StoreCall.GetCategory req.CategoryID]
      ∧ (server.traced.createAccount verify bind ctx0 ⟨s, []⟩).2.db = s1 := by
  simp [Server.createAccount, Server.traced, Store.traced, Traced.record, hv, hb, hc, ht,
    Context.JSON, StatusBadRequest, StoreCall.isCreateAccount]

/-- The sample request of type "income" against category 5 of type "expense":
status 400, and the accounts table is unchanged. -/
theorem createAccount_type_mismatch_witness :
    (tableServer.traced.createAccount tokenAccepted (fun _ => .ok (sampleCreate "income"))
        (freshContext "POST") ⟨sampleDatabase, []⟩).1.Status = some 400
      ∧ (tableServer.traced.createAccount tokenAccepted (fun _ => .ok (sampleCreate "income"))
        (freshContext "POST") ⟨sampleDatabase, []⟩).2.db = sampleDatabase := by
  have h := createAccount_type_mismatch tableServer tokenAccepted
    (fun _ => .ok (sampleCreate "income")) (freshContext "POST") (freshContext "POST")
    sampleDatabase sampleDatabase (sampleCreate "income") sampleCategory rfl rfl
    rfl (by decide)
  exact ⟨h.1, h.2.2.2⟩

/-- C2: for a Create Account request that passes token verification and
binding, when the looked-up category's type equals the request's type,
`createAccount` makes exactly one `CreateAccount` call, after the lookup, whose
`UserID`, `CategoryID`, `Title`, `Type`, `Description`, `Value` and `Date` are
the submitted fields; and when that insert succeeds the response is 200 with
the row the store returned as body. -/
theorem createAccount_persists_once {σ L G R : Type} (server : Server σ L G R)
    (verify : TokenVerifier (Payload L G R))
    (bind : Binder (Payload L G R) createAccountRequest)
    (ctx0 ctx : Context (Payload L G R)) (s s1 : σ)
    (req : createAccountRequest) (category : Category)
    (hv : verify ctx0 = (none, ctx)) (hb : bind ctx = .ok req)
    (hc : server.store.GetCategory req.CategoryID s = (.ok category, s1))
    (ht : category.Type_ = req.Type_) :
    (server.traced.createAccount verify bind ctx0 ⟨s, []⟩).2.calls
        = [StoreCall.GetCategory req.CategoryID,
            StoreCall.CreateAccount
              { UserID := req.UserID, CategoryID := req.CategoryID, Title := req.Title,
                Type_ := req.Type_, Description := req.Description, Value := req.Value,
                Date := req.Date }]
      ∧ ((server.traced.createAccount verify bind ctx0 ⟨s, []⟩).2.calls.filter
          StoreCall.isCreateAccount).length = 1
      ∧ ∀ (account : Account) (s2 : σ),
          server.store.CreateAccount
              { UserID := req.UserID, CategoryID := req.CategoryID, Title := req.Title,
                Type_ := req.Type_, Description := req.Description, Value := req.Value,
                Date := req.Date } s1 = (.ok account, s2) →
            (server.traced.createAccount verify bind ctx0 ⟨s, []⟩).1.Status = some 200
              ∧ (server.traced.createAccount verify bind ctx0 ⟨s, []⟩).1.Body
                  = some (Payload.account account)
              ∧ (server.traced.createAccount verify bind ctx0 ⟨s, []⟩).2.db = s2 := by
  have hcalls : (server.traced.createAccount verify bind ctx0 ⟨s, []⟩).2.calls
      = [StoreCall.GetCategory req.CategoryID,
          StoreCall.CreateAccount
            { UserID := req.UserID, CategoryID := req.CategoryID, Title := req.Title,
              Type_ := req.Type_, Description := req.Description, Value := req.Value,
              Date := req.Date }] := by
    rcases hi : server.store.CreateAccount
        { UserID := req.UserID, CategoryID := req.CategoryID, Title := req.Title,
          Type_ := req.Type_, Description := req.Description, Value := req.Value,
          Date := req.Date } s1 with ⟨_ | _, s2⟩ <;>
      simp [Server.createAccount, Server.traced, Store.traced, Traced.record, hv, hb, hc, ht, hi]
  refine ⟨hcalls, ?_, ?_⟩
  · rw [hcalls]
    rfl
  · intro account s2 hi
    simp [Server.createAccount, Server.traced, Store.traced, Traced.record, hv, hb, hc, ht, hi,
      Context.JSON, StatusOK]

/-- The sample request of type "expense" against category 5 of type "expense":
status 200, the body is the new row with identifier 2 and the submitted
fields, and the accounts table holds it. -/
theorem createAccount_persists_once_witness :
    (tableServer.traced.createAccount tokenAccepted (fun _ => .ok (sampleCreate "expense"))
        (freshContext "POST") ⟨sampleDatabase, []⟩).1.Status = some 200
      ∧ (tableServer.traced.createAccount tokenAccepted (fun _ => .ok (sampleCreate "expense"))
        (freshContext "POST") ⟨sampleDatabase, []⟩).1.Body
          = some (Payload.account
              { ID := 2, UserID := 1, CategoryID := 5, Title := "Rent", Type_ := "expense",
                Description := "Monthly rent", Value := 150000, Date := 1704067200,
                CreatedAt := 300 })
      ∧ (tableServer.traced.createAccount tokenAccepted (fun _ => .ok (sampleCreate "expense"))
        (freshContext "POST") ⟨sampleDatabase, []⟩).2.db.accounts
          = [sampleAccount,
              { ID := 2, UserID := 1, CategoryID := 5, Title := "Rent", Type_ := "expense",
                Description := "Monthly rent", Value := 150000, Date := 1704067200,
                CreatedAt := 300 }] := by
  have h := (createAccount_persists_once tableServer tokenAccepted
    (fun _ => .ok (sampleCreate "expense")) (freshContext "POST") (freshContext "POST")
    sampleDatabase sampleDatabase (sampleCreate "expense") sampleCategory rfl rfl
    rfl (by decide)).2.2 _ _ rfl
  exact ⟨h.1, h.2.1, rfl⟩

/-- C3, the code at a lookup that fails for another reason than a missing row:
with the connection down, `GetCategory` returns an error that is not
`sql.ErrNoRows`, and `createAccount` responds 404. -/
theorem createAccount_lookup_failure_status :
    (tableServer.store.GetCategory (sampleCreate "expense").CategoryID offlineDatabase).1
        = .error connectionRefused
      ∧ connectionRefused ≠ GoError.ErrNoRows
      ∧ (tableServer.createAccount tokenAccepted (fun _ => .ok (sampleCreate "expense"))
          (freshContext "POST") offlineDatabase).1.Status = some 404 := by
  refine ⟨rfl, by decide, rfl⟩

/-- Every error of the category lookup, whatever it is, makes `createAccount`
respond 404; an error of the insert makes it respond 500. -/
theorem createAccount_error_status {σ L G R : Type} (server : Server σ L G R)
    (verify : TokenVerifier (Payload L G R))
    (bind : Binder (Payload L G R) createAccountRequest)
    (ctx0 ctx : Context (Payload L G R)) (s : σ) (req : createAccountRequest)
    (hv : verify ctx0 = (none, ctx)) (hb : bind ctx = .ok req) :
    (∀ (err : GoError) (s1 : σ),
        server.store.GetCategory req.CategoryID s = (.error err, s1) →
          (server.createAccount verify bind ctx0 s).1.Status = some 404)
      ∧ (∀ (category : Category) (err : GoError) (s1 s2 : σ),
          server.store.GetCategory req.CategoryID s = (.ok category, s1) →
          category.Type_ = req.Type_ →
          server.store.CreateAccount
              { UserID := req.UserID, CategoryID := req.CategoryID, Title := req.Title,
                Type_ := req.Type_, Description := req.Description, Value := req.Value,
                Date := req.Date } s1 = (.error err, s2) →
            (server.createAccount verify bind ctx0 s).1.Status = some 500) := by
  constructor
  · intro err s1 hc
    simp [Server.createAccount, hv, hb, hc, Context.JSON, StatusNotFound]
  · intro category err s1 s2 hc ht hi
    simp [Server.createAccount, hv, hb, hc, ht, hi, Context.JSON, StatusInternalServerError]

/-! ## Properties of `getAccount` and `deleteAccount` -/

/-- C4: for `getAccount` and `deleteAccount` at a bound id, the response is
404 when the store call returns `sql.ErrNoRows`, 500 when it returns any other
error, and 200 when it succeeds, with the account record as body for
`getAccount` and the boolean `true` for `deleteAccount`. -/
theorem getAccount_deleteAccount_status {σ L G R : Type} (server : Server σ L G R)
    (verify : TokenVerifier (Payload L G R))
    (bind : Binder (Payload L G R) getAccountRequest)
    (ctx0 ctx : Context (Payload L G R)) (s : σ) (req : getAccountRequest)
    (hv : verify ctx0 = (none, ctx)) (hb : bind ctx = .ok req) :
    (∀ s1, server.store.GetAccount req.ID s = (.error GoError.ErrNoRows, s1) →
        (server.getAccount verify bind ctx0 s).1.Status = some 404)
      ∧ (∀ err s1, err ≠ GoError.ErrNoRows →
          server.store.GetAccount req.ID s = (.error err, s1) →
            (server.getAccount verify bind ctx0 s).1.Status = some 500)
      ∧ (∀ account s1, server.store.GetAccount req.ID s = (.ok account, s1) →
          (server.getAccount verify bind ctx0 s).1.Status = some 200
            ∧ (server.getAccount verify bind ctx0 s).1.Body
                = some (Payload.account account))
      ∧ (∀ s1, server.store.DeleteAccount req.ID s = (.error GoError.ErrNoRows, s1) →
          (server.deleteAccount verify bind ctx0 s).1.Status = some 404)
      ∧ (∀ err s1, err ≠ GoError.ErrNoRows →
          server.store.DeleteAccount req.ID s = (.error err, s1) →
            (server.deleteAccount verify bind ctx0 s).1.Status = some 500)
      ∧ (∀ s1, server.store.DeleteAccount req.ID s = (.ok (), s1) →
          (server.deleteAccount verify bind ctx0 s).1.Status = some 200
            ∧ (server.deleteAccount verify bind ctx0 s).1.Body
                = some (Payload.bool true)) := by
  refine ⟨?_, ?_, ?_, ?_, ?_, ?_⟩
  · intro s1 h
    simp [Server.getAccount, hv, hb, h, Context.JSON, StatusNotFound]
  · intro err s1 hne h
    simp [Server.getAccount, hv, hb, h, hne, Context.JSON, StatusInternalServerError]
  · intro account s1 h
    simp [Server.getAccount, hv, hb, h, Context.JSON, StatusOK]
  · intro s1 h
    simp [Server.deleteAccount, hv, hb, h, Context.JSON, StatusNotFound]
  · intro err s1 hne h
    simp [Server.deleteAccount, hv, hb, h, hne, Context.JSON, StatusInternalServerError]
  · intro s1 h
    simp [Server.deleteAccount, hv, hb, h, Context.JSON, StatusOK]

/-- On the sample database: account 1 is fetched with 200 and its record and
deleted with 200 and `true`; the missing account 999 is answered 404 by both;
with the connection down both answer 500. -/
theorem getAccount_deleteAccount_status_witness :
    ((tableServer.getAccount tokenAccepted (fun _ => .ok { ID := 1 })
          (freshContext "GET") sampleDatabase).1.Status = some 200
        ∧ (tableServer.getAccount tokenAccepted (fun _ => .ok { ID := 1 })
          (freshContext "GET") sampleDatabase).1.Body
            = some (Payload.account sampleAccount))
      ∧ ((tableServer.deleteAccount tokenAccepted (fun _ => .ok { ID := 1 })
          (freshContext "DELETE") sampleDatabase).1.Status = some 200
        ∧ (tableServer.deleteAccount tokenAccepted (fun _ => .ok { ID := 1 })
          (freshContext "DELETE") sampleDatabase).1.Body = some (Payload.bool true))
      ∧ (tableServer.getAccount tokenAccepted (fun _ => .ok { ID := 999 })
          (freshContext "GET") sampleDatabase).1.Status = some 404
      ∧ (tableServer.deleteAccount tokenAccepted (fun _ => .ok { ID := 999 })
          (freshContext "DELETE") sampleDatabase).1.Status = some 404
      ∧ (tableServer.getAccount tokenAccepted (fun _ => .ok { ID := 1 })
          (freshContext "GET") offlineDatabase).1.Status = some 500
      ∧ (tableServer.deleteAccount tokenAccepted (fun _ => .ok { ID := 1 })
          (freshContext "DELETE") offlineDatabase).1.Status = some 500 := by
  have hget := getAccount_deleteAccount_status tableServer tokenAccepted
    (fun _ => .ok { ID := 1 }) (freshContext "GET") (freshContext "GET") sampleDatabase
    { ID := 1 } rfl rfl
  have hdel := getAccount_deleteAccount_status tableServer tokenAccepted
    (fun _ => .ok { ID := 1 }) (freshContext "DELETE") (freshContext "DELETE") sampleDatabase
    { ID := 1 } rfl rfl
  have hget2 := getAccount_deleteAccount_status tableServer tokenAccepted
    (fun _ => .ok { ID := 999 }) (freshContext "GET") (freshContext "GET") sampleDatabase
    { ID := 999 } rfl rfl
  have hdel2 := getAccount_deleteAccount_status tableServer tokenAccepted
    (fun _ => .ok { ID := 999 }) (freshContext "DELETE") (freshContext "DELETE") sampleDatabase
    { ID := 999 } rfl rfl
  have hget3 := getAccount_deleteAccount_status tableServer tokenAccepted
    (fun _ => .ok { ID := 1 }) (freshContext "GET") (freshContext "GET") offlineDatabase
    { ID := 1 } rfl rfl
  have hdel3 := getAccount_deleteAccount_status tableServer tokenAccepted
    (fun _ => .ok { ID := 1 }) (freshContext "DELETE") (freshContext "DELETE") offlineDatabase
    { ID := 1 } rfl rfl
  exact ⟨hget.2.2.1 sampleAccount sampleDatabase rfl, hdel.2.2.2.2.2 _ rfl,
    hget2.1 sampleDatabase rfl, hdel2.2.2.2.1 sampleDatabase rfl,
    hget3.2.1 connectionRefused offlineDatabase (by decide) rfl,
    hdel3.2.2.2.2.1 connectionRefused offlineDatabase (by decide) rfl⟩

/-! ## Properties of `updateAccount` and of the listing handlers -/

/-- C5: for an Update Account request that binds successfully, `updateAccount`
makes one store call, `UpdateAccount`, with `Title`, `Description` and `Value`
equal to whatever was bound; and when the binder is `ShouldBindJSON` at
`updateAccountRequest`, a body that omits `title`, `description` or `value`
passes the empty string or zero for that field. -/
theorem updateAccount_overwrites {σ L G R : Type} (server : Server σ L G R)
    (verify : TokenVerifier (Payload L G R)) (ctx0 ctx : Context (Payload L G R)) (s : σ)
    (hv : verify ctx0 = (none, ctx)) :
    (∀ (bind : Binder (Payload L G R) updateAccountRequest) (req : updateAccountRequest),
        bind ctx = .ok req →
          (server.traced.updateAccount verify bind ctx0 ⟨s, []⟩).2.calls
            = [StoreCall.UpdateAccount
                { ID := req.ID, Title := req.Title, Description := req.Description,
                  Value := req.Value }])
      ∧ (∀ (decode : Context (Payload L G R) → Except GoError updateAccountBody)
          (body : updateAccountBody) (req : updateAccountRequest),
          decode ctx = .ok body → bindUpdateAccountRequest (.ok body) = .ok req →
            (server.traced.updateAccount verify (fun c => bindUpdateAccountRequest (decode c))
                ctx0 ⟨s, []⟩).2.calls
              = [StoreCall.UpdateAccount
                  { ID := req.ID, Title := body.title.getD "",
                    Description := body.description.getD "", Value := body.value.getD 0 }]) := by
  have key : ∀ (bind : Binder (Payload L G R) updateAccountRequest)
      (req : updateAccountRequest), bind ctx = .ok req →
        (server.traced.updateAccount verify bind ctx0 ⟨s, []⟩).2.calls
          = [StoreCall.UpdateAccount
              { ID := req.ID, Title := req.Title, Description := req.Description,
                Value := req.Value }] := by
    intro bind req hb
    rcases hu : server.store.UpdateAccount
        { ID := req.ID, Title := req.Title, Description := req.Description,
          Value := req.Value } s with ⟨_ | _, s1⟩ <;>
      simp [Server.updateAccount, Server.traced, Store.traced, Traced.record, hv, hb, hu]
  refine ⟨key, ?_⟩
  intro decode body req hd hreq
  have hb : (fun c => bindUpdateAccountRequest (decode c)) ctx = .ok req := by
    simp only [hd]; exact hreq
  rw [key _ req hb]
  simp only [bindUpdateAccountRequest] at hreq
  split at hreq
  · cases hreq
  · cases hreq; rfl

/-- An update of account 1 that supplies only `id` and `value`: the store is
called with an empty title and description, and over the table store the
title and description of the row "Rent" are cleared. -/
theorem updateAccount_overwrites_witness :
    (tableServer.traced.updateAccount tokenAccepted
        (fun _ => bindUpdateAccountRequest (.ok ⟨some 1, none, none, some 7⟩))
        (freshContext "PUT") ⟨sampleDatabase, []⟩).2.calls
      = [StoreCall.UpdateAccount { ID := 1, Title := "", Description := "", Value := 7 }]
      ∧ (tableServer.traced.updateAccount tokenAccepted
        (fun _ => bindUpdateAccountRequest (.ok ⟨some 1, none, none, some 7⟩))
        (freshContext "PUT") ⟨sampleDatabase, []⟩).2.db.accounts
      = [{ sampleAccount with Title := "", Description := "", Value := 7 }] :=
  ⟨(updateAccount_overwrites tableServer tokenAccepted (freshContext "PUT")
    (freshContext "PUT") sampleDatabase rfl).2
    (fun _ => .ok ⟨some 1, none, none, some 7⟩) ⟨some 1, none, none, some 7⟩
    { ID := 1, Title := "", Description := "", Value := 7 } rfl rfl, rfl⟩

/-- C6: `updateAccount`, `getAccounts`, `getAccountGraph` and
`getAccountsReports` have no NotFound case: for a bound request every store
error, `sql.ErrNoRows` included, gives status 500, every store success gives
status 200 with the store's result as body, and the status is never 404. -/
theorem no_not_found_case {σ L G R : Type} (server : Server σ L G R) :
    InternalOrOK server.updateAccount
        (fun req => server.store.UpdateAccount
          { ID := req.ID, Title := req.Title, Description := req.Description,
            Value := req.Value })
        Payload.account
      ∧ InternalOrOK server.getAccounts
        (fun req => server.store.GetAccounts
          { UserID := req.UserID, Type_ := req.Type_, CategoryID := req.CategoryID,
            Title := req.Title, Description := req.Description, Date := req.Date })
        Payload.listing
      ∧ InternalOrOK server.getAccountGraph
        (fun req => server.store.GetAccountsGraph { UserID := req.UserID, Type_ := req.Type_ })
        Payload.graph
      ∧ InternalOrOK server.getAccountsReports
        (fun req => server.store.GetAccountsReports
          { UserID := req.UserID, Type_ := req.Type_ })
        Payload.reports := by
  refine ⟨?_, ?_, ?_, ?_⟩
  · intro verify bind ctx0 ctx s hv
    refine ⟨?_, ?_⟩
    · intro req hb
      refine ⟨?_, ?_⟩
      · intro err s1 h
        simp only [] at h
        simp [Server.updateAccount, hv, hb, h, Context.JSON, StatusInternalServerError]
      · intro r s1 h
        simp only [] at h
        simp [Server.updateAccount, hv, hb, h, Context.JSON, StatusOK]
    · simp only [Server.updateAccount, hv]
      cases hb : bind ctx with
      | error e => simp [Context.JSON, StatusBadRequest]
      | ok req =>
        simp only []
        cases hu : server.store.UpdateAccount
            { ID := req.ID, Title := req.Title, Description := req.Description,
              Value := req.Value } s with
        | mk r s1 =>
          cases r <;> simp [Context.JSON, StatusInternalServerError, StatusOK]
  · intro verify bind ctx0 ctx s hv
    refine ⟨?_, ?_⟩
    · intro req hb
      refine ⟨?_, ?_⟩
      · intro err s1 h
        simp only [] at h
        simp [Server.getAccounts, hv, hb, h, Context.JSON, StatusInternalServerError]
      · intro r s1 h
        simp only [] at h
        simp [Server.getAccounts, hv, hb, h, Context.JSON, StatusOK]
    · simp only [Server.getAccounts, hv]
      cases hb : bind ctx with
      | error e => simp [Context.JSON, StatusBadRequest]
      | ok req =>
        simp only []
        cases hu : server.store.GetAccounts
            { UserID := req.UserID, Type_ := req.Type_, CategoryID := req.CategoryID,
              Title := req.Title, Description := req.Description, Date := req.Date } s with
        | mk r s1 =>
          cases r <;> simp [Context.JSON, StatusInternalServerError, StatusOK]
  · intro verify bind ctx0 ctx s hv
    refine ⟨?_, ?_⟩
    · intro req hb
      refine ⟨?_, ?_⟩
      · intro err s1 h
        simp only [] at h
        simp [Server.getAccountGraph, hv, hb, h, Context.JSON, StatusInternalServerError]
      · intro r s1 h
        simp only [] at h
        simp [Server.getAccountGraph, hv, hb, h, Context.JSON, StatusOK]
    · simp only [Server.getAccountGraph, hv]
      cases hb : bind ctx with
      | error e => simp [Context.JSON, StatusBadRequest]
      | ok req =>
        simp only []
        cases hu : server.store.GetAccountsGraph
            { UserID := req.UserID, Type_ := req.Type_ } s with
        | mk r s1 =>
          cases r <;> simp [Context.JSON, StatusInternalServerError, StatusOK]
  · intro verify bind ctx0 ctx s hv
    refine ⟨?_, ?_⟩
    · intro req hb
      refine ⟨?_, ?_⟩
      · intro err s1 h
        simp only [] at h
        simp [Server.getAccountsReports, hv, hb, h, Context.JSON, StatusInternalServerError]
      · intro r s1 h
        simp only [] at h
        simp [Server.getAccountsReports, hv, hb, h, Context.JSON, StatusOK]
    · simp only [Server.getAccountsReports, hv]
      cases hb : bind ctx with
      | error e => simp [Context.JSON, StatusBadRequest]
      | ok req =>
        simp only []
        cases hu : server.store.GetAccountsReports
            { UserID := req.UserID, Type_ := req.Type_ } s with
        | mk r s1 =>
          cases r <;> simp [Context.JSON, StatusInternalServerError, StatusOK]

/-- An update of the non-existent account 999, for which the store returns
`sql.ErrNoRows`, is answered 500; a listing that matches no row is answered
200 with the empty list. -/
theorem no_not_found_case_witness :
    (tableServer.updateAccount tokenAccepted
        (fun _ => .ok { ID := 999, Title := "Rent", Description := "Monthly rent", Value := 1 })
        (freshContext "PUT") sampleDatabase).1.Status = some 500
      ∧ ((tableServer.getAccounts tokenAccepted (fun _ => .ok (sampleList "Groceries"))
          (freshContext "GET") sampleDatabase).1.Status = some 200
        ∧ (tableServer.getAccounts tokenAccepted (fun _ => .ok (sampleList "Groceries"))
          (freshContext "GET") sampleDatabase).1.Body = some (Payload.listing [])) := by
  have h := no_not_found_case tableServer
  exact ⟨((h.1 tokenAccepted _ (freshContext "PUT") (freshContext "PUT") sampleDatabase rfl).1
      { ID := 999, Title := "Rent", Description := "Monthly rent", Value := 1 } rfl).1
      GoError.ErrNoRows sampleDatabase rfl,
    ((h.2.1 tokenAccepted _ (freshContext "GET") (freshContext "GET") sampleDatabase rfl).1
      (sampleList "Groceries") rfl).2 [] sampleDatabase rfl⟩

/-! ## Token verification and binding come first -/

/-- The handler `createAccount` is guarded by token verification and binding. -/
theorem createAccount_guarded {σ L G R : Type} (server : Server σ L G R) :
    GuardedByTokenAndBinding server.traced.createAccount := by
  intro verify bind ctx0 w
  refine ⟨?_, ?_, ?_⟩
  · intro err ctx hv bind2
    simp [Server.createAccount, hv]
  · intro ctx err hv hb
    simp [Server.createAccount, hv, hb, Context.JSON, StatusBadRequest]
  · intro hcalls
    rcases hv : verify ctx0 with ⟨_ | err, ctx⟩
    · cases hb : bind ctx with
      | error e => simp [Server.createAccount, hv, hb] at hcalls
      | ok req => exact ⟨ctx, req, rfl, hb⟩
    · simp [Server.createAccount, hv] at hcalls

/-- The handler `getAccount` is guarded by token verification and binding. -/
theorem getAccount_guarded {σ L G R : Type} (server : Server σ L G R) :
    GuardedByTokenAndBinding server.traced.getAccount := by
  intro verify bind ctx0 w
  refine ⟨?_, ?_, ?_⟩
  · intro err ctx hv bind2
    simp [Server.getAccount, hv]
  · intro ctx err hv hb
    simp [Server.getAccount, hv, hb, Context.JSON, StatusBadRequest]
  · intro hcalls
    rcases hv : verify ctx0 with ⟨_ | err, ctx⟩
    · cases hb : bind ctx with
      | error e => simp [Server.getAccount, hv, hb] at hcalls
      | ok req => exact ⟨ctx, req, rfl, hb⟩
    · simp [Server.getAccount, hv] at hcalls

/-- The handler `deleteAccount` is guarded by token verification and binding. -/
theorem deleteAccount_guarded {σ L G R : Type} (server : Server σ L G R) :
    GuardedByTokenAndBinding server.traced.deleteAccount := by
  intro verify bind ctx0 w
  refine ⟨?_, ?_, ?_⟩
  · intro err ctx hv bind2
    simp [Server.deleteAccount, hv]
  · intro ctx err hv hb
    simp [Server.deleteAccount, hv, hb, Context.JSON, StatusBadRequest]
  · intro hcalls
    rcases hv : verify ctx0 with ⟨_ | err, ctx⟩
    · cases hb : bind ctx with
      | error e => simp [Server.deleteAccount, hv, hb] at hcalls
      | ok req => exact ⟨ctx, req, rfl, hb⟩
    · simp [Server.deleteAccount, hv] at hcalls

/-- The handler `updateAccount` is guarded by token verification and binding. -/
theorem updateAccount_guarded {σ L G R : Type} (server : Server σ L G R) :
    GuardedByTokenAndBinding server.traced.updateAccount := by
  intro verify bind ctx0 w
  refine ⟨?_, ?_, ?_⟩
  · intro err ctx hv bind2
    simp [Server.updateAccount, hv]
  · intro ctx err hv hb
    simp [Server.updateAccount, hv, hb, Context.JSON, StatusBadRequest]
  · intro hcalls
    rcases hv : verify ctx0 with ⟨_ | err, ctx⟩
    · cases hb : bind ctx with
      | error e => simp [Server.updateAccount, hv, hb] at hcalls
      | ok req => exact ⟨ctx, req, rfl, hb⟩
    · simp [Server.updateAccount, hv] at hcalls

/-- The handler `getAccounts` is guarded by token verification and binding. -/
theorem getAccounts_guarded {σ L G R : Type} (server : Server σ L G R) :
    GuardedByTokenAndBinding server.traced.getAccounts := by
  intro verify bind ctx0 w
  refine ⟨?_, ?_, ?_⟩
  · intro err ctx hv bind2
    simp [Server.getAccounts, hv]
  · intro ctx err hv hb
    simp [Server.getAccounts, hv, hb, Context.JSON, StatusBadRequest]
  · intro hcalls
    rcases hv : verify ctx0 with ⟨_ | err, ctx⟩
    · cases hb : bind ctx with
      | error e => simp [Server.getAccounts, hv, hb] at hcalls
      | ok req => exact ⟨ctx, req, rfl, hb⟩
    · simp [Server.getAccounts, hv] at hcalls

/-- The handler `getAccountGraph` is guarded by token verification and binding. -/
theorem getAccountGraph_guarded {σ L G R : Type} (server : Server σ L G R) :
    GuardedByTokenAndBinding server.traced.getAccountGraph := by
  intro verify bind ctx0 w
  refine ⟨?_, ?_, ?_⟩
  · intro err ctx hv bind2
    simp [Server.getAccountGraph, hv]
  · intro ctx err hv hb
    simp [Server.getAccountGraph, hv, hb, Context.JSON, StatusBadRequest]
  · intro hcalls
    rcases hv : verify ctx0 with ⟨_ | err, ctx⟩
    · cases hb : bind ctx with
      | error e => simp [Server.getAccountGraph, hv, hb] at hcalls
      | ok req => exact ⟨ctx, req, rfl, hb⟩
    · simp [Server.getAccountGraph, hv] at hcalls

/-- The handler `getAccountsReports` is guarded by token verification and binding. -/
theorem getAccountsReports_guarded {σ L G R : Type} (server : Server σ L G R) :
    GuardedByTokenAndBinding server.traced.getAccountsReports := by
  intro verify bind ctx0 w
  refine ⟨?_, ?_, ?_⟩
  · intro err ctx hv bind2
    simp [Server.getAccountsReports, hv]
  · intro ctx err hv hb
    simp [Server.getAccountsReports, hv, hb, Context.JSON, StatusBadRequest]
  · intro hcalls
    rcases hv : verify ctx0 with ⟨_ | err, ctx⟩
    · cases hb : bind ctx with
      | error e => simp [Server.getAccountsReports, hv, hb] at hcalls
      | ok req => exact ⟨ctx, req, rfl, hb⟩
    · simp [Server.getAccountsReports, hv] at hcalls

/-- C7: in each of the seven account handlers no store operation is invoked
unless token verification and then request binding have both succeeded: a
token failure ends the request before binding with no store call, and a bind
failure yields status 400 with no store call. -/
theorem handlers_guarded {σ L G R : Type} (server : Server σ L G R) :
    GuardedByTokenAndBinding server.traced.createAccount
      ∧ GuardedByTokenAndBinding server.traced.getAccount
      ∧ GuardedByTokenAndBinding server.traced.deleteAccount
      ∧ GuardedByTokenAndBinding server.traced.updateAccount
      ∧ GuardedByTokenAndBinding server.traced.getAccounts
      ∧ GuardedByTokenAndBinding server.traced.getAccountGraph
      ∧ GuardedByTokenAndBinding server.traced.getAccountsReports :=
  ⟨createAccount_guarded server, getAccount_guarded server, deleteAccount_guarded server,
    updateAccount_guarded server, getAccounts_guarded server, getAccountGraph_guarded server,
    getAccountsReports_guarded server⟩

/-- A Create Account request with a rejected token leaves the sample database
untouched and the call log empty, and the response is the verifier's; a Get
Account request that fails to bind is answered 400 with no store call. -/
theorem handlers_guarded_witness :
    (tableServer.traced.createAccount tokenRejected (fun _ => .ok (sampleCreate "expense"))
        (freshContext "POST") ⟨sampleDatabase, []⟩).2.calls = []
      ∧ (tableServer.traced.createAccount tokenRejected (fun _ => .ok (sampleCreate "expense"))
        (freshContext "POST") ⟨sampleDatabase, []⟩).2.db = sampleDatabase
      ∧ (tableServer.traced.createAccount tokenRejected (fun _ => .ok (sampleCreate "expense"))
        (freshContext "POST") ⟨sampleDatabase, []⟩).1.Status = some 401
      ∧ (tableServer.traced.getAccount tokenAccepted
        (fun _ => .error (GoError.other "id is required"))
        (freshContext "GET") ⟨sampleDatabase, []⟩).1.Status = some 400
      ∧ (tableServer.traced.getAccount tokenAccepted
        (fun _ => .error (GoError.other "id is required"))
        (freshContext "GET") ⟨sampleDatabase, []⟩).2.calls = [] := by
  have h := handlers_guarded tableServer
  have h1 := (h.1 tokenRejected (fun _ => .ok (sampleCreate "expense")) (freshContext "POST")
    ⟨sampleDatabase, []⟩).1 _ _ rfl (fun _ => .ok (sampleCreate "expense"))
  have h2 := (h.2.1 tokenAccepted (fun _ => .error (GoError.other "id is required"))
    (freshContext "GET") ⟨sampleDatabase, []⟩).2.1 _ _ rfl rfl
  refine ⟨?_, ?_, ?_, h2.1, ?_⟩
  · rw [h1]
  · rw [h1]
  · rw [h1]; rfl
  · rw [h2.2]

/-! ## The category listing -/

/-- An empty `LIKE` pattern matches the empty text only. -/
theorem sqlLike_empty_pattern (column : String) :
    sqlLike column "" = true ↔ column = "" := by
  constructor
  · intro h
    have h2 : column.data.isEmpty = true := h
    exact String.ext (List.isEmpty_iff.mp h2)
  · intro h
    subst h
    rfl

/-- The scan loop over rows that all scan collects them in order. -/
theorem scanRows_ok (rows items : List Category) :
    scanRows (rows.map (fun c => Except.ok c)) items = .ok (items ++ rows) := by
  induction rows generalizing items with
  | nil => simp [scanRows]
  | cons c rest ih => simp [scanRows, ih]

set_option maxRecDepth 4096 in
/-- The statement `getCategories` hands its title pattern to `LIKE` as it is:
over the table, the query `GetCategories` with an empty title pattern returns
only categories whose title is empty. -/
theorem GetCategories_empty_title (arg : GetCategoriesParams) (t t1 : CategoryTable)
    (items : List Category) (ht : arg.Title = "")
    (h : tableQueries.GetCategories arg t = (.ok items, t1)) :
    ∀ c ∈ items, c.Title = "" := by
  unfold Queries.GetCategories at h
  have hq : tableQueries.db.QueryContext getCategories
      [SqlValue.int arg.UserID, SqlValue.text arg.Type_, SqlValue.text arg.Title,
        SqlValue.text arg.Description] t
      = (Except.ok (Rows.mk ((t.rows.filter
            (getCategoriesWhere arg.UserID arg.Type_ arg.Title arg.Description)).map
              (fun c => Except.ok c)) none none), t) := rfl
  rw [hq] at h
  simp only [scanRows_ok, List.nil_append] at h
  have hi : items = t.rows.filter
      (getCategoriesWhere arg.UserID arg.Type_ arg.Title arg.Description) := by
    cases h; rfl
  intro c hc
  rw [hi, List.mem_filter] at hc
  have hw := hc.2
  simp only [getCategoriesWhere, Bool.and_eq_true, ht] at hw
  exact (sqlLike_empty_pattern c.Title).1 hw.1.2

/-! ## The title filter of List Accounts -/

/-- With an empty title filter the `WHERE` clause of `GetAccounts` is the
conjunction of its other filters. -/
theorem getAccountsWhere_empty_title (arg : GetAccountsParams) (a : Account)
    (ht : arg.Title = "") :
    getAccountsWhere arg a = getAccountsWhereOther arg a := by
  simp [getAccountsWhere, getAccountsWhereOther, ht]

/-- C8: for a List Accounts request whose title filter is the empty string,
`getAccounts` hands the empty string to the store as the title filter, and
the store's `GetAccounts`, whenever it succeeds, is answered with status 200
and the rows that pass the other filters, whatever their title: the empty
title filter excludes no row. -/
theorem getAccounts_empty_title_no_filter :
    (∀ (σ L G R : Type) (server : Server σ L G R) (verify : TokenVerifier (Payload L G R))
        (bind : Binder (Payload L G R) getAccountsRequest)
        (ctx0 ctx : Context (Payload L G R)) (s : σ) (req : getAccountsRequest),
        verify ctx0 = (none, ctx) → bind ctx = .ok req → req.Title = "" →
          (server.traced.getAccounts verify bind ctx0 ⟨s, []⟩).2.calls
            = [StoreCall.GetAccounts
                { UserID := req.UserID, Type_ := req.Type_, CategoryID := req.CategoryID,
                  Title := "", Description := req.Description, Date := req.Date }])
      ∧ (∀ (verify : TokenVerifier TablePayload) (bind : Binder TablePayload getAccountsRequest)
          (ctx0 ctx : Context TablePayload) (d d1 : Database) (req : getAccountsRequest)
          (rows : List Account),
          verify ctx0 = (none, ctx) → bind ctx = .ok req → req.Title = "" →
          tableStore.GetAccounts
              { UserID := req.UserID, Type_ := req.Type_, CategoryID := req.CategoryID,
                Title := req.Title, Description := req.Description, Date := req.Date } d
            = (.ok rows, d1) →
            (tableServer.getAccounts verify bind ctx0 d).1.Status = some 200
              ∧ (tableServer.getAccounts verify bind ctx0 d).1.Body
                  = some (Payload.listing rows)
              ∧ rows = d.accounts.filter
                  (getAccountsWhereOther
                    { UserID := req.UserID, Type_ := req.Type_, CategoryID := req.CategoryID,
                      Title := req.Title, Description := req.Description, Date := req.Date })
              ∧ ∀ a ∈ d.accounts,
                  getAccountsWhereOther
                    { UserID := req.UserID, Type_ := req.Type_, CategoryID := req.CategoryID,
                      Title := req.Title, Description := req.Description, Date := req.Date } a
                    = true → a ∈ rows) := by
  constructor
  · intro σ L G R server verify bind ctx0 ctx s req hv hb ht
    rcases hu : server.store.GetAccounts
        { UserID := req.UserID, Type_ := req.Type_, CategoryID := req.CategoryID,
          Title := "", Description := req.Description, Date := req.Date } s with ⟨_ | _, s1⟩ <;>
      simp [Server.getAccounts, Server.traced, Store.traced, Traced.record, hv, hb, ht, hu]
  · intro verify bind ctx0 ctx d d1 req rows hv hb ht hs
    have hrows : rows = d.accounts.filter
        (getAccountsWhereOther
          { UserID := req.UserID, Type_ := req.Type_, CategoryID := req.CategoryID,
            Title := req.Title, Description := req.Description, Date := req.Date }) := by
      have hs2 := hs
      simp only [tableStore, Database.GetAccounts] at hs2
      by_cases hon : d.online = true
      · simp only [hon, if_true, Prod.mk.injEq, Except.ok.injEq] at hs2
        rw [← hs2.1]
        apply List.filter_congr
        intro a _
        exact getAccountsWhere_empty_title _ a ht
      · simp [hon] at hs2
    have hs3 : tableServer.store.GetAccounts
        { UserID := req.UserID, Type_ := req.Type_, CategoryID := req.CategoryID,
          Title := req.Title, Description := req.Description, Date := req.Date } d
        = (.ok rows, d1) := hs
    refine ⟨?_, ?_, hrows, ?_⟩
    · simp [Server.getAccounts, hv, hb, hs3, Context.JSON, StatusOK]
    · simp [Server.getAccounts, hv, hb, hs3, Context.JSON]
    · intro a ha hother
      rw [hrows, List.mem_filter]
      exact ⟨ha, hother⟩

/-- Over the sample table, a List Accounts request with the empty title filter
is answered 200 with the account "Rent"; over a table holding "Rent" and an
untitled account it is answered with both. -/
theorem getAccounts_empty_title_no_filter_witness :
    ((tableServer.getAccounts tokenAccepted (fun _ => .ok (sampleList ""))
          (freshContext "GET") sampleDatabase).1.Status = some 200
        ∧ (tableServer.getAccounts tokenAccepted (fun _ => .ok (sampleList ""))
          (freshContext "GET") sampleDatabase).1.Body = some (Payload.listing [sampleAccount]))
      ∧ (tableServer.getAccounts tokenAccepted (fun _ => .ok (sampleList ""))
          (freshContext "GET") mixedDatabase).1.Body
          = some (Payload.listing [sampleAccount, untitledAccount])
      ∧ sampleAccount.Title ≠ "" := by
  have h1 := getAccounts_empty_title_no_filter.2 tokenAccepted
    (fun _ => .ok (sampleList "")) (freshContext "GET") (freshContext "GET") sampleDatabase
    sampleDatabase (sampleList "") [sampleAccount] rfl rfl rfl rfl
  have h2 := getAccounts_empty_title_no_filter.2 tokenAccepted
    (fun _ => .ok (sampleList "")) (freshContext "GET") (freshContext "GET") mixedDatabase
    mixedDatabase (sampleList "") [sampleAccount, untitledAccount] rfl rfl rfl rfl
  exact ⟨⟨h1.1, h1.2.1⟩, h2.2.1, by decide⟩

/-! ## The CORS middleware -/

/-- Reading a header back after setting it. -/
theorem headerGet_headerSet_same (h : List (String × String)) (key value : String) :
    headerGet (headerSet h key value) key = some value := by
  have hnone : List.find? (fun kv => kv.1 == key) (h.filter (fun kv => kv.1 != key)) = none := by
    rw [List.find?_eq_none]
    intro kv hkv
    rw [List.mem_filter] at hkv
    simpa using hkv.2
  simp [headerGet, headerSet, List.find?_append, hnone]

/-- Looking a header up skips the filtering out of another key. -/
theorem find_filter_other (h : List (String × String)) (key other : String)
    (hne : key ≠ other) :
    List.find? (fun kv => kv.1 == key) (h.filter (fun kv => kv.1 != other))
      = List.find? (fun kv => kv.1 == key) h := by
  induction h with
  | nil => rfl
  | cons kv rest ih =>
    rcases kv with ⟨k, v⟩
    by_cases hko : k = other
    · have hk : ¬ k = key := fun e => hne (e.symm.trans hko)
      rw [List.filter_cons_of_neg (by simpa using hko),
        List.find?_cons_of_neg _ (by simpa using hk)]
      exact ih
    · rw [List.filter_cons_of_pos (by simpa using hko)]
      by_cases hk : k = key
      · rw [List.find?_cons_of_pos _ (by simpa using hk),
          List.find?_cons_of_pos _ (by simpa using hk)]
      · rw [List.find?_cons_of_neg _ (by simpa using hk),
          List.find?_cons_of_neg _ (by simpa using hk)]
        exact ih

/-- Setting a header leaves the other headers as they are. -/
theorem headerGet_headerSet_other (h : List (String × String)) (key other value : String)
    (hne : key ≠ other) :
    headerGet (headerSet h other value) key = headerGet h key := by
  have hne2 : other ≠ key := fun e => hne e.symm
  simp only [headerGet, headerSet, List.find?_append, find_filter_other h key other hne]
  cases List.find? (fun kv => kv.1 == key) h <;> simp [hne2]

/-- C9: the middleware returned by `CORSConfig` sets the four CORS headers on
every request and writes no status of its own before the method test; for the
method OPTIONS it aborts with status 204 whatever the downstream handler is,
which is not run; for every other method the result is the downstream
handler's, run on the context with the headers set. -/
theorem CORSConfig_headers_and_preflight {β : Type} (context : Context β) :
    ∃ c : Context β,
      headerGet c.Header "Access-Control-Allow-Origin" = some "*"
        ∧ headerGet c.Header "Access-Control-Allow-Methods" = some "POST, GET, PUT, DELETE"
        ∧ headerGet c.Header "Access-Control-Allow-Headers"
            = some "Content-Type, Content-Length, X-CSRF-Token, Authorization, accept, origin, Cache-Control, X-Requested-With"
        ∧ headerGet c.Header "Access-Control-Allow-Credentials" = some "true"
        ∧ c.Method = context.Method ∧ c.Status = context.Status ∧ c.Body = context.Body
        ∧ c.Aborted = context.Aborted
        ∧ (context.Method = "OPTIONS" →
            ∀ next : Context β → Context β,
              CORSConfig next context = { c with Status := some 204, Aborted := true })
        ∧ (context.Method ≠ "OPTIONS" →
            ∀ next : Context β → Context β, CORSConfig next context = next c) := by
  refine ⟨(((context.SetHeader "Access-Control-Allow-Origin" "*").SetHeader
      "Access-Control-Allow-Credentials" "true").SetHeader "Access-Control-Allow-Headers"
      "Content-Type, Content-Length, X-CSRF-Token, Authorization, accept, origin, Cache-Control, X-Requested-With").SetHeader
      "Access-Control-Allow-Methods" "POST, GET, PUT, DELETE", ?_, ?_, ?_, ?_, rfl, rfl, rfl, rfl,
      ?_, ?_⟩
  · simp only [Context.SetHeader]
    rw [headerGet_headerSet_other _ _ _ _ (by decide),
      headerGet_headerSet_other _ _ _ _ (by decide),
      headerGet_headerSet_other _ _ _ _ (by decide), headerGet_headerSet_same]
  · simp only [Context.SetHeader]
    rw [headerGet_headerSet_same]
  · simp only [Context.SetHeader]
    rw [headerGet_headerSet_other _ _ _ _ (by decide), headerGet_headerSet_same]
  · simp only [Context.SetHeader]
    rw [headerGet_headerSet_other _ _ _ _ (by decide),
      headerGet_headerSet_other _ _ _ _ (by decide), headerGet_headerSet_same]
  · intro hm next
    simp [CORSConfig, Context.SetHeader, Context.AbortWithStatus, hm]
  · intro hm next
    simp [CORSConfig, Context.SetHeader, hm]

/-- A preflight request is answered 204 and aborted although the downstream
handler would have answered 200. -/
theorem CORSConfig_headers_and_preflight_witness :
    (CORSConfig (fun c => c.JSON 200 "pong") (freshContext "OPTIONS")).Status = some 204
      ∧ (CORSConfig (fun c => c.JSON 200 "pong") (freshContext "OPTIONS")).Aborted = true
      ∧ (CORSConfig (fun c => c.JSON 200 "pong") (freshContext "OPTIONS")).Body = none := by
  obtain ⟨c, -, -, -, -, -, -, hbody, -, hopt, -⟩ :=
    CORSConfig_headers_and_preflight (freshContext "OPTIONS" : Context String)
  rw [hopt rfl (fun c => c.JSON 200 "pong")]
  exact ⟨rfl, rfl, hbody⟩

/-! ## `DeleteCategory` -/

/-- C10: `DeleteCategory` returns exactly the error of executing the DELETE
statement and discards the execution result: whatever result a successful
execution reports, it returns nil, and an execution error is returned as it
is; over the table it returns nil for every id, whether a row with that id
was there to delete or not. -/
theorem DeleteCategory_no_existence_check :
    (∀ (σ : Type) (q : Queries σ) (id : Int) (s s1 : σ) (result : SqlResult),
        q.db.ExecContext deleteCategory [SqlValue.int id] s = (.ok result, s1) →
          q.DeleteCategory id s = (none, s1))
      ∧ (∀ (σ : Type) (q : Queries σ) (id : Int) (s s1 : σ) (err : GoError),
          q.db.ExecContext deleteCategory [SqlValue.int id] s = (.error err, s1) →
            q.DeleteCategory id s = (some err, s1))
      ∧ (∀ (t : CategoryTable) (id : Int),
          (tableQueries.DeleteCategory id t).1 = none
            ∧ (tableQueries.DeleteCategory id t).2.rows = t.rows.filter (fun c => c.ID != id)) := by
  refine ⟨?_, ?_, ?_⟩
  · intro σ q id s s1 result h
    simp [Queries.DeleteCategory, h]
  · intro σ q id s s1 err h
    simp [Queries.DeleteCategory, h]
  · intro t id
    simp [Queries.DeleteCategory, tableQueries, tableDB, tableExec]

/-- Deleting category 5, which the sample table holds, and category 7, which
it does not, both return nil; the first execution affects one row and the
second none. -/
theorem DeleteCategory_no_existence_check_witness :
    (tableDB.ExecContext deleteCategory [SqlValue.int 5] sampleDatabase.categories).1
        = .ok { RowsAffected := 1 }
      ∧ (tableQueries.DeleteCategory 5 sampleDatabase.categories).1 = none
      ∧ (tableDB.ExecContext deleteCategory [SqlValue.int 7] sampleDatabase.categories).1
        = .ok { RowsAffected := 0 }
      ∧ (tableQueries.DeleteCategory 7 sampleDatabase.categories).1 = none :=
  ⟨rfl, (DeleteCategory_no_existence_check.2.2 sampleDatabase.categories 5).1, rfl,
    (DeleteCategory_no_existence_check.2.2 sampleDatabase.categories 7).1⟩

end GoFinance
